import Mathlib

/-!
Verification development for the RiskOBot evidence assessment pipeline.

The embedded source files are src/utils/llm_chain.py (knowledge-base build,
concurrent evidence assessment, workbook export), src/utils/chat.py
(chat_with_bot) and src/agent.py (extract_text and the verdict keyword
classification in run_audit).

Modelling conventions:
- External collaborators (the FAISS similarity search, the Ollama language
  model, the per-filetype text extractors) are passed as explicit function
  parameters.  A call that can raise in Python is modelled with codomain
  Except String.
- Python dicts with a fixed key set are modelled as structures; a Python
  function that can return None is modelled with Option.
- The thread pool in assess_evidence_with_kb collects future results in
  completion order, a permutation of submission order decided by the
  scheduler.  The model returns results in submission order; each result is
  a pure function of its chunk, so record contents and record count are
  independent of the schedule and the claims settled here are about those.
- Python str.strip is modelled by pyStrip below (whitespace removed from
  both ends, computed structurally on the character list), str.lower by pyLower
  below, and the substring test needle in haystack by containsSubstr
  below.
-/

/-- Prefix test on character lists, matching Python str.startswith on the
decoded characters. -/
def isPrefixList : List Char → List Char → Bool
  | [], _ => true
  | _ :: _, [] => false
  | a :: as, b :: bs => a = b && isPrefixList as bs

/-- Substring occurrence test on character lists: does pat occur
contiguously in the second argument?  Matches the Python operator
pat in s. -/
def containsSub (pat : List Char) : List Char → Bool
  | [] => isPrefixList pat []
  | c :: cs => isPrefixList pat (c :: cs) || containsSub pat cs

/-- Python substring operator: containsSubstr s pat is pat in s. -/
def containsSubstr (s pat : String) : Bool :=
  containsSub pat.data s.data

/-- Python str.lower: lowercase each character.  Computed structurally on
the character list so that it evaluates in the kernel. -/
def pyLower (s : String) : String :=
  String.mk (s.data.map Char.toLower)

/-- Python str.strip: remove whitespace from both ends.  Computed
structurally on the character list so that it evaluates in the kernel. -/
def pyStrip (s : String) : String :=
  String.mk (((s.data.dropWhile Char.isWhitespace).reverse.dropWhile
    Char.isWhitespace).reverse)

/-- Modelled from the spec: the Chunker (section 4.1).  The concrete
implementation, langchain RecursiveCharacterTextSplitter, is an external
library and not part of this repository; src/utils/llm_chain.py lines 21-26
only configure it (chunk_size=512, chunk_overlap=64, length measured in
characters).  The spec describes fixed-size segments of target length L
overlapping by O with O < L.  The model cuts windows of length L advancing
by step = L - O characters; fuel bounds the recursion and s.length fuel is
always sufficient because every recursive call removes at least one
character.  sm1 is step - 1, so the advance sm1 + 1 is positive by
construction. -/
def chunkListFuel (L sm1 : Nat) : Nat → List Char → List (List Char)
  | 0, s => [s]
  | fuel + 1, s =>
      if s.length ≤ L then [s]
      else s.take L :: chunkListFuel L sm1 fuel (s.drop (sm1 + 1))

/-- Modelled from the spec: chunk a character list with window L and
advance sm1 + 1. -/
def chunkList (L sm1 : Nat) (s : List Char) : List (List Char) :=
  chunkListFuel L sm1 s.length s

/-- Modelled from the spec: split_text of the configured splitter.
Degenerate input (empty or whitespace-only text) yields an empty sequence
per spec section 4.1; otherwise overlapping windows of chunk_size
characters advancing by chunk_size - chunk_overlap. -/
def split_text (chunk_size chunk_overlap : Nat) (t : String) : List String :=
  if pyStrip t = "" then []
  else (chunkList chunk_size (chunk_size - chunk_overlap - 1) t.data).map String.mk

/-- The splitter instance configured at src/utils/llm_chain.py lines 21-26:
chunk_size=512, chunk_overlap=64. -/
def text_splitter_split (t : String) : List String :=
  split_text 512 64 t

/-- Concatenation of chunk tails with the first O characters (the
overlapping portion) of each chunk removed. -/
def dropJoin (O : Nat) (ls : List (List Char)) : List Char :=
  (ls.map (List.drop O)).flatten

/-- Concatenation of a chunk sequence deduplicating the overlap: the first
chunk whole, every later chunk with its leading O characters removed. -/
def dedupChunks (O : Nat) : List (List Char) → List Char
  | [] => []
  | c :: cs => c ++ dropJoin O cs

/-- String-level overlap-deduplicating concatenation. -/
def dedupConcat (O : Nat) (cs : List String) : String :=
  String.mk (dedupChunks O (cs.map String.data))

/-- A langchain Document as consumed by build_knowledge_base and
assess_evidence_with_kb: only its page_content is read. -/
structure Doc where
  page_content : String
  deriving DecidableEq

/-- One iteration of the document loop of build_knowledge_base
(src/utils/llm_chain.py lines 35-44): a document whose page_content strips
to empty is skipped, otherwise its splits are appended to texts. -/
def kbStep (acc : List String) (d : Doc) : List String :=
  if pyStrip d.page_content = "" then acc
  else acc ++ text_splitter_split d.page_content

/-- build_knowledge_base (src/utils/llm_chain.py lines 32-58).  The
knowledge base is modelled by the list of chunk texts handed to
FAISS.from_texts; the embedding computation itself is external.  When no
text survives filtering the source raises
ValueError("No valid content found in input documents."), modelled as
Except.error with that message. -/
def build_knowledge_base (docs : List Doc) : Except String (List String) :=
  let texts := docs.foldl kbStep []
  if texts.isEmpty then Except.error "No valid content found in input documents."
  else Except.ok texts

/-- An element of the assessment list returned by the engine.  In the
source (src/utils/llm_chain.py lines 87-89 and 92-94) each result is the
dict literal with the single key "assessment"; this structure is that
dict. -/
structure AssessmentRecord where
  assessment : String
  deriving DecidableEq

/-- The prompt composed by _assess_single_evidence
(src/utils/llm_chain.py lines 67-85). -/
def assessmentPrompt (evid_text kb_context : String) : String :=
  "You are an information security auditor.\n" ++
  "Evidence snippet:\n" ++ evid_text ++ "\n\n" ++
  "Policy/report context:\n" ++ kb_context ++ "\n\n" ++
  "1. Identify the type of evidence (e.g. DB log, password log, screenshot, config).\n" ++
  "2. Assess its compliance with the policy context and SOC2/CRI.\n" ++
  "3. Provide the control statement against which the evidence is tested.\n" ++
  "4. if the evidence is not compliant, return \x27Non-Compliant\x27,log entry where it fails the control and rationale as to why it fails the control statement.\n" ++
  "5. If compliant, return \x27Compliant\x27 with no further details.\n" ++
  "6. Suggest improvements and reremedy if applicable. If remedy measures are already present and evident in logs, point those out.\n\n" ++
  "Provide response in below format:\n" ++
  "Control Statement: <control statement>\n" ++
  "Assessment: <Compliant/Non-Compliant>\n" ++
  "Evidence Type: <evidence type>\n" ++
  "Log Entry: <if Non-Compliant, log entry where it fails>\n" ++
  "Rationale: <if Non-Compliant, rationale for failure>\n" ++
  "Improvements: <if applicable, suggestions for improvement/remedy measures if Non-Compliant>\n"

/-- _assess_single_evidence (src/utils/llm_chain.py lines 62-94).
search is kb_vectorstore.similarity_search with k, returning the
page_content of the retrieved chunks; llm is the Ollama call.  Both sit
inside the try block, so a failure of either produces the
{"assessment": "Error: ..."} record of the except branch.  chunk_index and
doc_index are only interpolated into the failure log message in the
source; they do not flow into the returned record. -/
def _assess_single_evidence (search : String → Nat → Except String (List String))
    (llm : String → Except String String)
    (evid_text : String) (chunk_index doc_index : Nat) : AssessmentRecord :=
  match search evid_text 3 with
  | Except.error e => { assessment := "Error: " ++ e }
  | Except.ok relevant_contexts =>
      let kb_context := String.intercalate "\n\n" relevant_contexts
      match llm (assessmentPrompt evid_text kb_context) with
      | Except.error e => { assessment := "Error: " ++ e }
      | Except.ok answer => { assessment := answer }

/-- One iteration of the evidence loop of assess_evidence_with_kb
(src/utils/llm_chain.py lines 102-112).  The source extends evid_texts
with the splits and chunk_origin with the repeated document index; the
model keeps the two lists in lockstep as a single list of
(chunk text, origin document index) pairs. -/
def evidenceStep (acc : List (String × Nat)) (p : Nat × Doc) : List (String × Nat) :=
  if pyStrip p.2.page_content = "" then acc
  else acc ++ (text_splitter_split p.2.page_content).map (fun t => (t, p.1))

/-- The evidence chunks submitted to the pool, paired with their origin
document index. -/
def evidenceChunks (evidence_docs : List Doc) : List (String × Nat) :=
  evidence_docs.enum.foldl evidenceStep []

/-- assess_evidence_with_kb (src/utils/llm_chain.py lines 98-129).  The
source submits _assess_single_evidence(evid_texts[i], kb, i,
chunk_origin[i]) for each i and gathers the future results; gathering
order is completion order, but each result depends only on its own chunk,
so the model lists them in submission order. -/
def assess_evidence_with_kb (search : String → Nat → Except String (List String))
    (llm : String → Except String String)
    (evidence_docs : List Doc) : List AssessmentRecord :=
  let pairs := evidenceChunks evidence_docs
  if pairs.isEmpty then []
  else pairs.enum.map (fun q => _assess_single_evidence search llm q.2.1 q.1 q.2.2)

/-- The tabular artifact written by generate_workbook: pandas derives the
column list from the dict keys of the records and writes one row per
record. -/
structure Workbook where
  columns : List String
  rows : List (List String)
  deriving DecidableEq

/-- generate_workbook (src/utils/llm_chain.py lines 133-148).  Empty input
short-circuits to return None (Except.ok none); otherwise
pd.DataFrame(assessment) has the single column "assessment" (the only key
of every record) and one row per record.  The function never raises: the
empty-input branch returns before the try block and the try block catches
every exception of the Excel write and returns None.  The temporary-file
write itself is external I/O; the model keeps the table that is written. -/
def generate_workbook (assessment : List AssessmentRecord) :
    Except String (Option Workbook) :=
  if assessment.isEmpty then Except.ok none
  else Except.ok (some
    { columns := ["assessment"]
      rows := assessment.map (fun r => [r.assessment]) })

/-- The prompt composed by chat_with_bot (src/utils/chat.py lines 14-20). -/
def chatPrompt (user_input kb_context assessment_context : String) : String :=
  "You are an information security audit assistant. " ++
  "User question: " ++ user_input ++ "\n\n" ++
  "Policy/Report context:\n" ++ kb_context ++ "\n\n" ++
  "Assessment context:\n" ++ assessment_context ++ "\n\n" ++
  "Answer in a clear and concise way."

/-- The response computed for one question inside chat_with_bot
(src/utils/chat.py lines 9-21): top-3 knowledge-base context, the first
three assessment records as context, one llm call.  The chat path has no
try/except, so search and llm are modelled as plain functions. -/
def chat_answer (search : String → Nat → List String) (llm : String → String)
    (assessment : List AssessmentRecord) (user_input : String) : String :=
  let kb_context := String.intercalate "\n\n" (search user_input 3)
  let assessment_context :=
    String.intercalate "\n\n" ((assessment.take 3).map AssessmentRecord.assessment)
  llm (chatPrompt user_input kb_context assessment_context)

/-- chat_with_bot (src/utils/chat.py lines 4-22), state view: the only
mutation performed by a send is the append of the (question, response)
pair to st.session_state chat_history; kb_vectorstore and assessment are
only read.  The model maps the incoming history to the outgoing one. -/
def chat_with_bot (search : String → Nat → List String) (llm : String → String)
    (assessment : List AssessmentRecord)
    (chat_history : List (String × String)) (user_input : String) :
    List (String × String) :=
  chat_history ++ [(user_input, chat_answer search llm assessment user_input)]

/-- extract_text (src/agent.py lines 39-53).  The five per-filetype
extractors are external collaborators that may raise, modelled with
Except; the try block turns any exception into the string
"Error extracting text: <e>", and an unmatched filetype falls through to
return "". -/
def extract_text {F : Type} (ep et ec ex ei : F → Except String String)
    (file : F) (filetype : String) : String :=
  let run : Except String String → String := fun r =>
    match r with
    | Except.ok s => s
    | Except.error e => "Error extracting text: " ++ e
  if filetype = "pdf" then run (ep file)
  else if filetype = "txt" then run (et file)
  else if filetype = "csv" then run (ec file)
  else if filetype = "xlsx" then run (ex file)
  else if filetype = "jpg" || filetype = "jpeg" || filetype = "png" then run (ei file)
  else ""

/-- The verdict keyword classification in run_audit
(src/agent.py lines 158-165): case-insensitive substring checks in the
order "non-compliant", "compliant", "partial", defaulting to "Unknown". -/
def classify_verdict (verdict : String) : String :=
  let v_lower := pyLower verdict
  if containsSubstr v_lower "non-compliant" then "Non-Compliant"
  else if containsSubstr v_lower "compliant" then "Compliant"
  else if containsSubstr v_lower "partial" then "Partial"
  else "Unknown"

-- ===== Helper lemmas about the modelled chunker =====

/-- The chunker never returns an empty chunk list. -/
theorem chunkListFuel_ne_nil (L sm1 fuel : Nat) (s : List Char) :
    chunkListFuel L sm1 fuel s ≠ [] := by
  cases fuel with
  | zero => simp [chunkListFuel]
  | succ n =>
      by_cases h : s.length ≤ L <;> simp [chunkListFuel, h]

/-- The number of chunks is bounded by the input length plus one: the
chunker makes forward progress and terminates. -/
theorem chunkListFuel_length_le (L sm1 : Nat) (fuel : Nat) :
    ∀ s : List Char, s.length ≤ fuel →
      (chunkListFuel L sm1 fuel s).length ≤ s.length + 1 := by
  induction fuel with
  | zero => intro s _; simp [chunkListFuel]
  | succ n ih =>
      intro s hs
      by_cases h : s.length ≤ L
      · simp [chunkListFuel, h]
      · have hrec := ih (s.drop (sm1 + 1)) (by rw [List.length_drop]; omega)
        rw [List.length_drop] at hrec
        simp only [chunkListFuel, if_neg h, List.length_cons]
        omega

/-- Dropping the overlap O = L - (sm1 + 1) from every chunk and
concatenating yields the input with its first O characters removed. -/
theorem dropJoin_chunkListFuel (L sm1 : Nat) (hst : sm1 + 1 ≤ L) (fuel : Nat) :
    ∀ s : List Char, s.length ≤ fuel →
      dropJoin (L - (sm1 + 1)) (chunkListFuel L sm1 fuel s)
        = s.drop (L - (sm1 + 1)) := by
  induction fuel with
  | zero =>
      intro s hs
      have hnil : s = [] := List.eq_nil_of_length_eq_zero (Nat.le_zero.mp hs)
      subst hnil
      simp [chunkListFuel, dropJoin]
  | succ n ih =>
      intro s hs
      by_cases h : s.length ≤ L
      · simp [chunkListFuel, h, dropJoin]
      · have hrec := ih (s.drop (sm1 + 1)) (by rw [List.length_drop]; omega)
        simp only [chunkListFuel, if_neg h]
        simp only [dropJoin, List.map_cons, List.flatten_cons] at hrec ⊢
        rw [hrec, List.drop_drop]
        have harith : sm1 + 1 + (L - (sm1 + 1)) = L := by omega
        rw [harith]
        have hsplit : s.drop (L - (sm1 + 1))
            = (s.take L).drop (L - (sm1 + 1)) ++ s.drop L := by
          conv_lhs => rw [← List.take_append_drop L s]
          rw [List.drop_append_of_le_length]
          rw [List.length_take]
          omega
        rw [hsplit]

/-- Round trip of the modelled chunker at the character level: the first
chunk followed by every later chunk minus its overlap reassembles the
input exactly. -/
theorem dedupChunks_chunkListFuel (L sm1 : Nat) (hst : sm1 + 1 ≤ L) (fuel : Nat) :
    ∀ s : List Char, s.length ≤ fuel →
      dedupChunks (L - (sm1 + 1)) (chunkListFuel L sm1 fuel s) = s := by
  induction fuel with
  | zero =>
      intro s hs
      have hnil : s = [] := List.eq_nil_of_length_eq_zero (Nat.le_zero.mp hs)
      subst hnil
      simp [chunkListFuel, dedupChunks, dropJoin]
  | succ n ih =>
      intro s hs
      by_cases h : s.length ≤ L
      · simp [chunkListFuel, h, dedupChunks, dropJoin]
      · have hdj := dropJoin_chunkListFuel L sm1 hst n (s.drop (sm1 + 1))
          (by rw [List.length_drop]; omega)
        simp only [chunkListFuel, if_neg h, dedupChunks]
        rw [hdj, List.drop_drop]
        have harith : sm1 + 1 + (L - (sm1 + 1)) = L := by omega
        rw [harith, List.take_append_drop]

/-- Every chunk of a nonempty input is nonempty. -/
theorem chunkListFuel_mem_ne_nil (L sm1 : Nat) (hst : sm1 + 1 ≤ L) (fuel : Nat) :
    ∀ s : List Char, s.length ≤ fuel → s ≠ [] →
      ∀ c ∈ chunkListFuel L sm1 fuel s, c ≠ [] := by
  induction fuel with
  | zero =>
      intro s _ hne c hc
      simp [chunkListFuel] at hc
      subst hc; exact hne
  | succ n ih =>
      intro s hs hne c hc
      by_cases h : s.length ≤ L
      · simp [chunkListFuel, h] at hc
        subst hc; exact hne
      · simp only [chunkListFuel, if_neg h, List.mem_cons] at hc
        rcases hc with hc | hc
        · subst hc
          have : (s.take L).length = L := by
            rw [List.length_take]; omega
          intro hnil
          rw [hnil] at this
          simp at this
          omega
        · refine ih (s.drop (sm1 + 1)) (by rw [List.length_drop]; omega) ?_ c hc
          intro hnil
          have := congrArg List.length hnil
          rw [List.length_drop] at this
          simp at this
          omega

/-- If every document strips to whitespace, the build loop adds nothing. -/
theorem foldl_kbStep_all_blank :
    ∀ (docs : List Doc) (acc : List String),
      (∀ d ∈ docs, pyStrip d.page_content = "") →
      docs.foldl kbStep acc = acc := by
  intro docs
  induction docs with
  | nil => intro acc _; rfl
  | cons d ds ih =>
      intro acc h
      have hd : pyStrip d.page_content = "" := h d (List.mem_cons_self d ds)
      have hds : ∀ x ∈ ds, pyStrip x.page_content = "" :=
        fun x hx => h x (List.mem_cons_of_mem d hx)
      simp only [List.foldl_cons, kbStep, if_pos hd]
      exact ih acc hds

/-- C5 counterexample: the round-trip law fails as universally stated.  A
whitespace-only input text is degenerate: the chunker yields the empty
chunk sequence, whose overlap-deduplicating concatenation is the empty
string, not the input. -/
theorem split_roundtrip_fails_on_whitespace :
    text_splitter_split " " = [] ∧
    dedupConcat 64 (text_splitter_split " ") = "" ∧
    (" " : String) ≠ "" := by
  refine ⟨by decide, by decide, by decide⟩

/-- C5 (amended): for every input text that is not empty or
whitespace-only, splitting with the configured chunker (chunk_size=512,
chunk_overlap=64) and concatenating the chunk texts deduplicating the
64-character overlaps reproduces the input exactly, and no produced chunk
is empty. -/
theorem split_text_roundtrip (T : String) (hT : pyStrip T ≠ "") :
    dedupConcat 64 (text_splitter_split T) = T ∧
    ∀ c ∈ text_splitter_split T, c ≠ "" := by
  have hmap : (text_splitter_split T).map String.data
      = chunkListFuel 512 447 T.data.length T.data := by
    simp only [text_splitter_split, split_text, if_neg hT, chunkList, List.map_map]
    have hcomp : String.data ∘ String.mk = id := by funext l; rfl
    rw [hcomp, List.map_id]
  constructor
  · have h := dedupChunks_chunkListFuel 512 447 (by omega) T.data.length T.data (le_refl _)
    have h64 : (512 : Nat) - (447 + 1) = 64 := by norm_num
    rw [h64] at h
    unfold dedupConcat
    rw [hmap, h]
  · intro c hc
    have hTne : T.data ≠ [] := by
      intro hnil
      apply hT
      have hTe : T = "" := by
        cases T with
        | mk d => simp only [String.data] at hnil; rw [hnil]
      rw [hTe]
      rfl
    have hdat : c.data ∈ chunkListFuel 512 447 T.data.length T.data := by
      rw [← hmap]
      exact List.mem_map_of_mem String.data hc
    have hcd := chunkListFuel_mem_ne_nil 512 447 (by omega) T.data.length T.data
      (le_refl _) hTne c.data hdat
    intro hce
    apply hcd
    rw [hce]

/-- C5 witness: the amended round trip at a concrete input. -/
theorem split_text_roundtrip_witness :
    dedupConcat 64 (text_splitter_split "hello world") = "hello world" :=
  (split_text_roundtrip "hello world" (by decide)).1

/-- C7: for every configuration with positive chunk_size and overlap
strictly below chunk_size, the chunker terminates on every input (the
chunk count is finite, bounded by the input length plus one) and produces
at least one chunk for every input that is not whitespace-only. -/
theorem chunker_terminates_and_produces (L O : Nat) (T : String)
    (hL : 0 < L) (hO : O < L) (hT : pyStrip T ≠ "") :
    1 ≤ (split_text L O T).length ∧ (split_text L O T).length ≤ T.length + 1 := by
  unfold split_text
  rw [if_neg hT, List.length_map]
  unfold chunkList
  constructor
  · have hne := chunkListFuel_ne_nil L (L - O - 1) T.data.length T.data
    exact Nat.one_le_iff_ne_zero.mpr
      (fun h => hne (List.eq_nil_of_length_eq_zero h))
  · have hle := chunkListFuel_length_le L (L - O - 1) T.data.length T.data (le_refl _)
    exact hle

/-- C7 witness: a concrete configuration and input. -/
theorem chunker_terminates_and_produces_witness :
    1 ≤ (split_text 5 2 "hello world").length ∧
      (split_text 5 2 "hello world").length ≤ ("hello world" : String).length + 1 :=
  chunker_terminates_and_produces 5 2 "hello world" (by norm_num) (by norm_num) (by decide)

/-- C4: build_knowledge_base raises
ValueError("No valid content found in input documents.") whenever every
input document is empty or whitespace-only, so that no chunk survives
filtering; no knowledge base is returned. -/
theorem build_knowledge_base_empty_input (docs : List Doc)
    (h : ∀ d ∈ docs, pyStrip d.page_content = "") :
    build_knowledge_base docs
      = Except.error "No valid content found in input documents." := by
  unfold build_knowledge_base
  rw [foldl_kbStep_all_blank docs [] h]
  rfl

/-- C4 witness: two degenerate documents. -/
theorem build_knowledge_base_empty_input_witness :
    build_knowledge_base [{ page_content := "" }, { page_content := "   " }]
      = Except.error "No valid content found in input documents." :=
  build_knowledge_base_empty_input _ (by decide)

/-- C1 (amended): when the language-model evaluator raises on every call
(and retrieval succeeds), assess_evidence_with_kb still returns exactly
one assessment record per evidence chunk — no record is lost and no
exception escapes the batch (the model is a total function because the
source catches every per-chunk exception) — and every record consists of
the single assessment field holding "Error: " followed by the error
message.  The records carry no verdict field, so none carries a verdict
Unknown. -/
theorem assess_evidence_failure_isolation
    (search : String → Nat → Except String (List String))
    (llm : String → Except String String) (msg : String)
    (hs : ∀ q k, ∃ l, search q k = Except.ok l)
    (hl : ∀ p, llm p = Except.error msg)
    (docs : List Doc) :
    (assess_evidence_with_kb search llm docs).length
      = (evidenceChunks docs).length ∧
    ∀ r ∈ assess_evidence_with_kb search llm docs,
      r.assessment = "Error: " ++ msg := by
  unfold assess_evidence_with_kb
  by_cases hp : (evidenceChunks docs).isEmpty
  · rw [if_pos hp]
    have hnil : evidenceChunks docs = [] := by
      cases hres : evidenceChunks docs with
      | nil => rfl
      | cons a l => rw [hres] at hp; simp [List.isEmpty] at hp
    simp [hnil]
  · rw [if_neg hp]
    constructor
    · rw [List.length_map, List.enum_length]
    · intro r hr
      rw [List.mem_map] at hr
      obtain ⟨q, _, hfq⟩ := hr
      obtain ⟨ctxs, hctxs⟩ := hs q.2.1 3
      rw [← hfq]
      simp only [_assess_single_evidence, hctxs, hl]

/-- C1 witness: one failing evaluator, one evidence document. -/
theorem assess_evidence_failure_isolation_witness :
    (assess_evidence_with_kb (fun _ _ => Except.ok ["policy context"])
        (fun _ => Except.error "boom")
        [{ page_content := "evidence text" }]).length
      = (evidenceChunks [{ page_content := "evidence text" }]).length :=
  (assess_evidence_failure_isolation _ _ "boom"
    (fun _ _ => ⟨["policy context"], rfl⟩) (fun _ => rfl) _).1

/-- C1 counterexample: on total evaluator failure the produced record is
the single-field dict containing the raw error string, which does not
contain "Unknown" anywhere — the record carries no verdict Unknown with
the error as rationale. -/
theorem assess_failure_record_not_unknown :
    assess_evidence_with_kb (fun _ _ => Except.ok ["policy context"])
        (fun _ => Except.error "boom") [{ page_content := "login log" }]
      = [{ assessment := "Error: boom" }] ∧
    containsSubstr "Error: boom" "Unknown" = false := by
  exact ⟨by decide, by decide⟩

/-- C2 (amended): for every non-empty record sequence the export produces
a table with exactly one row per record but exactly one column — the
single AssessmentRecord field "assessment" — fixed across runs. -/
theorem generate_workbook_shape (records : List AssessmentRecord)
    (h : records ≠ []) :
    ∃ wb, generate_workbook records = Except.ok (some wb) ∧
      wb.rows.length = records.length ∧
      wb.columns = ["assessment"] := by
  have hne : ¬ (records.isEmpty = true) := by
    cases records with
    | nil => exact absurd rfl h
    | cons a l => simp [List.isEmpty]
  refine ⟨{ columns := ["assessment"],
            rows := records.map (fun r => [r.assessment]) }, ?_, ?_, rfl⟩
  · unfold generate_workbook
    rw [if_neg hne]
  · simp

/-- C2 witness: a single record. -/
theorem generate_workbook_shape_witness :
    ∃ wb, generate_workbook [{ assessment := "Compliant" }]
        = Except.ok (some wb) ∧
      wb.rows.length
        = ([{ assessment := "Compliant" }] : List AssessmentRecord).length ∧
      wb.columns = ["assessment"] :=
  generate_workbook_shape _ (by decide)

/-- C2 counterexample: on two records the exported table has two rows but
a single column "assessment", not the five columns the claim states. -/
theorem generate_workbook_one_column_not_five :
    generate_workbook [{ assessment := "a" }, { assessment := "b" }]
      = Except.ok (some { columns := ["assessment"], rows := [["a"], ["b"]] }) ∧
    (["assessment"] : List String).length ≠ 5 := by
  exact ⟨rfl, by decide⟩

/-- C3 (amended): an empty evidence set submitted to the assessment engine
returns the empty record sequence without raising, and a subsequent export
of that empty sequence returns None (no workbook artifact, after logging a
warning) without raising — there is no EmptyReportError. -/
theorem assess_empty_and_export_none
    (search : String → Nat → Except String (List String))
    (llm : String → Except String String) :
    assess_evidence_with_kb search llm [] = [] ∧
    generate_workbook [] = Except.ok none :=
  ⟨rfl, rfl⟩

/-- C3 counterexample: export of the empty record sequence returns
normally (Except.ok, i.e. no exception is raised) with value none, the
model of the Python return None — it does not raise a distinguishable
fatal error. -/
theorem generate_workbook_empty_returns_none :
    generate_workbook [] = Except.ok none ∧
    (generate_workbook []).isOk = true :=
  ⟨rfl, rfl⟩

/-- C6 (amended): the engine computes origin indices (chunk sequence index
and source document index) and passes them to the per-chunk worker, but
they are used only in the failure log message: the returned record is
independent of both indices, so records carry no origin metadata from
which a caller could re-sort the completion-ordered results. -/
theorem assess_record_independent_of_origin
    (search : String → Nat → Except String (List String))
    (llm : String → Except String String)
    (t : String) (i j k l : Nat) :
    _assess_single_evidence search llm t i j
      = _assess_single_evidence search llm t k l := rfl

/-- C6 counterexample: two evidence documents with distinct origins (doc
0, chunk 0) and (doc 1, chunk 1) under a constant evaluator yield two
identical records, so the records cannot contain the origin metadata the
claim asserts. -/
theorem assess_records_carry_no_origin :
    assess_evidence_with_kb (fun _ _ => Except.ok ["policy context"])
        (fun _ => Except.ok "Assessment: Compliant")
        [{ page_content := "log A" }, { page_content := "log B" }]
      = [{ assessment := "Assessment: Compliant" },
         { assessment := "Assessment: Compliant" }] := by
  decide

/-- C8: chat determinism and non-mutation.  A send only appends the
(question, response) pair to the chat history; the knowledge base and the
assessment records are read-only inputs.  Hence asking the identical
question twice in a row (with a deterministic evaluator, modelled as a
function) appends the byte-identical response both times. -/
theorem chat_with_bot_idempotent
    (search : String → Nat → List String) (llm : String → String)
    (assessment : List AssessmentRecord)
    (chat_history : List (String × String)) (q : String) :
    chat_with_bot search llm assessment
        (chat_with_bot search llm assessment chat_history q) q
      = chat_history ++
        [(q, chat_answer search llm assessment q),
         (q, chat_answer search llm assessment q)] := by
  simp [chat_with_bot]

/-- C9: extract_text is total at its interface.  For a filetype outside
{pdf, txt, csv, xlsx, jpg, jpeg, png} it returns the empty string, and
when the dispatched extractor raises it returns the string
"Error extracting text: " followed by the exception text, which flows
downstream as document content; the model being a total function reflects
that the source catches every exception and never raises. -/
theorem extract_text_interface {F : Type} (ep et ec ex ei : F → Except String String)
    (file : F) (filetype : String) :
    (filetype ∉ (["pdf", "txt", "csv", "xlsx", "jpg", "jpeg", "png"] : List String) →
      extract_text ep et ec ex ei file filetype = "") ∧
    (∀ e, ep file = Except.error e →
      extract_text ep et ec ex ei file "pdf" = "Error extracting text: " ++ e) ∧
    (∀ e, et file = Except.error e →
      extract_text ep et ec ex ei file "txt" = "Error extracting text: " ++ e) ∧
    (∀ e, ec file = Except.error e →
      extract_text ep et ec ex ei file "csv" = "Error extracting text: " ++ e) ∧
    (∀ e, ex file = Except.error e →
      extract_text ep et ec ex ei file "xlsx" = "Error extracting text: " ++ e) ∧
    (∀ e, ei file = Except.error e →
      extract_text ep et ec ex ei file "jpg" = "Error extracting text: " ++ e ∧
      extract_text ep et ec ex ei file "jpeg" = "Error extracting text: " ++ e ∧
      extract_text ep et ec ex ei file "png" = "Error extracting text: " ++ e) := by
  refine ⟨?_, ?_, ?_, ?_, ?_, ?_⟩
  · intro h
    simp only [List.mem_cons, List.not_mem_nil, or_false, not_or] at h
    obtain ⟨h1, h2, h3, h4, h5, h6, h7⟩ := h
    simp [extract_text, h1, h2, h3, h4, h5, h6, h7]
  · intro e he
    simp [extract_text, he]
  · intro e he
    simp [extract_text, he]
  · intro e he
    simp [extract_text, he]
  · intro e he
    simp [extract_text, he]
  · intro e he
    exact ⟨by simp [extract_text, he], by simp [extract_text, he],
      by simp [extract_text, he]⟩

/-- C9 witness: with every extractor failing with "disk error", an
unsupported filetype yields "" and the pdf path yields the prefixed error
string. -/
theorem extract_text_interface_witness :
    extract_text (fun _ : Unit => Except.error "disk error")
        (fun _ => Except.error "disk error") (fun _ => Except.error "disk error")
        (fun _ => Except.error "disk error") (fun _ => Except.error "disk error")
        () "docx" = "" ∧
    extract_text (fun _ : Unit => Except.error "disk error")
        (fun _ => Except.error "disk error") (fun _ => Except.error "disk error")
        (fun _ => Except.error "disk error") (fun _ => Except.error "disk error")
        () "pdf" = "Error extracting text: " ++ "disk error" := by
  constructor
  · exact (extract_text_interface _ _ _ _ _ () "docx").1 (by decide)
  · exact (extract_text_interface _ _ _ _ _ () "docx").2.1 "disk error" rfl

/-- C10: the verdict keyword classification checks "non-compliant" before
"compliant" before "partial" on the lowercased verdict, so any verdict
containing "compliant" (in particular "partially compliant") but not
"non-compliant" is classified "Compliant"; the "Partial" branch is
unreachable for such verdicts. -/
theorem classify_verdict_precedence (v : String)
    (h1 : containsSubstr (pyLower v) "compliant" = true)
    (h2 : containsSubstr (pyLower v) "non-compliant" = false) :
    classify_verdict v = "Compliant" ∧ classify_verdict v ≠ "Partial" := by
  have hc : classify_verdict v = "Compliant" := by
    simp [classify_verdict, h1, h2]
  exact ⟨hc, by rw [hc]; decide⟩

/-- C10 witness: a verdict containing "partially compliant" is classified
"Compliant", not "Partial". -/
theorem classify_verdict_precedence_witness :
    classify_verdict "The control is Partially Compliant" = "Compliant" ∧
    classify_verdict "The control is Partially Compliant" ≠ "Partial" :=
  classify_verdict_precedence "The control is Partially Compliant"
    (by decide) (by decide)
